import Mathlib

/-!
# Lander.cpp: sensor estimation and guidance

A shallow embedding of `src/Project_1/Lander.cpp`.

* A C++ `double` is an exact rational number: rounding and overflow are not
  modelled.  The two divisions whose divisor can be zero (`IsOutlier`, and the
  time-to-target test of `Lander_Control`) go through `fdiv`, which keeps the
  IEEE-754 results of a division by zero (an infinity, or NaN for `0/0`).
* The globals `broken`, the six history arrays and `init_gv` form an explicit
  `State` threaded through every function.
* The simulator interface of `Lander_Control.h` (sensor functions, `PLAT_X`,
  `PLAT_Y`, `SONAR_DIST`, the four actuator functions) is not part of the
  sources; they are the parameter `Sim`, and actuator calls are recorded
  as a list of `Cmd` in the order in which they are issued.
-/

namespace Lander

/-! ## Data model -/

/-- A `double[5]` array, index 0 first. -/
structure Hist where
  h0 : ℚ
  h1 : ℚ
  h2 : ℚ
  h3 : ℚ
  h4 : ℚ
deriving DecidableEq

/-- The array read `arr[i]`, for `i` in `0..4`. -/
def Hist.get (a : Hist) (i : Nat) : ℚ :=
  match i with
  | 0 => a.h0
  | 1 => a.h1
  | 2 => a.h2
  | 3 => a.h3
  | _ => a.h4

/-- The array write `arr[i] = v`, for `i` in `0..4`. -/
def Hist.set (a : Hist) (i : Nat) (v : ℚ) : Hist :=
  match i with
  | 0 => { a with h0 := v }
  | 1 => { a with h1 := v }
  | 2 => { a with h2 := v }
  | 3 => { a with h3 := v }
  | 4 => { a with h4 := v }
  | _ => a

/-- The entries of a history, index 0 first. -/
def Hist.toList (a : Hist) : List ℚ := [a.h0, a.h1, a.h2, a.h3, a.h4]

/-- The result of a floating-point division: a finite quotient, an infinity
(`inf true` is `+inf`), or NaN. -/
inductive FVal where
  | fin (q : ℚ)
  | inf (pos : Bool)
  | nan
deriving DecidableEq

/-- The quotient `a / b` of two doubles where `b` is never the negative zero:
`a / 0` is `+inf` or `-inf` after the sign of `a`, and `0 / 0` is NaN. -/
def fdiv (a b : ℚ) : FVal :=
  if b = 0 then (if a = 0 then FVal.nan else FVal.inf (decide (0 < a)))
  else FVal.fin (a / b)

/-- The comparison `x > y` of two doubles; false when either side is NaN. -/
def FVal.gt (x y : FVal) : Bool :=
  match x, y with
  | FVal.fin a, FVal.fin b => decide (b < a)
  | FVal.fin _, FVal.inf p => !p
  | FVal.inf p, FVal.fin _ => p
  | FVal.inf p, FVal.inf q => p && !q
  | _, _ => false

/-- The comparison `x < y` of two doubles; false when either side is NaN. -/
def FVal.lt (x y : FVal) : Bool := FVal.gt y x

/-- The `bool broken[6]` array: 0 X-vel, 1 Y-vel, 2 X-pos, 3 Y-pos, 4 angle,
5 range. -/
structure Flags where
  b0 : Bool
  b1 : Bool
  b2 : Bool
  b3 : Bool
  b4 : Bool
  b5 : Bool
deriving DecidableEq

/-- The array read `broken[i]`, for `i` in `0..5`. -/
def Flags.get (f : Flags) (i : Nat) : Bool :=
  match i with
  | 0 => f.b0
  | 1 => f.b1
  | 2 => f.b2
  | 3 => f.b3
  | 4 => f.b4
  | _ => f.b5

/-- The array write `broken[i] = v`, for `i` in `0..5`. -/
def Flags.set (f : Flags) (i : Nat) (v : Bool) : Flags :=
  match i with
  | 0 => { f with b0 := v }
  | 1 => { f with b1 := v }
  | 2 => { f with b2 := v }
  | 3 => { f with b3 := v }
  | 4 => { f with b4 := v }
  | 5 => { f with b5 := v }
  | _ => f

/-- The global variables of Lander.cpp (lines 176-185). -/
structure State where
  broken : Flags
  xvel_sensor : Hist
  yvel_sensor : Hist
  xpos_sensor : Hist
  ypos_sensor : Hist
  angle_sensor : Hist
  dist_sensor : Hist
  init_gv : Bool
deriving DecidableEq

/-- Modelled from the spec: the simulator interface declared in
`Lander_Control.h`, which is not among the sources.  The simulation
regenerates the sensor readings once per tick, so during one tick every call
of a sensor function returns the same reading; `PLAT_X`, `PLAT_Y` and the
36-entry `SONAR_DIST` array are the simulator's globals. -/
structure Sim where
  Velocity_X : ℚ
  Velocity_Y : ℚ
  Position_X : ℚ
  Position_Y : ℚ
  Angle : ℚ
  RangeDist : ℚ
  SONAR_DIST : Nat → ℚ
  PLAT_X : ℚ
  PLAT_Y : ℚ

/-- An actuator call made by a control function. -/
inductive Cmd where
  | Main_Thruster (power : ℚ)
  | Left_Thruster (power : ℚ)
  | Right_Thruster (power : ℚ)
  | Rotate (angle : ℚ)
deriving DecidableEq

/-- The globals as the C++ initialisers leave them: every `broken` entry is
`true`, the arrays are zero-initialised and `init_gv` is `false`. -/
def State.initial : State :=
  { broken := ⟨true, true, true, true, true, true⟩
    xvel_sensor := ⟨0, 0, 0, 0, 0⟩
    yvel_sensor := ⟨0, 0, 0, 0, 0⟩
    xpos_sensor := ⟨0, 0, 0, 0, 0⟩
    ypos_sensor := ⟨0, 0, 0, 0, 0⟩
    angle_sensor := ⟨0, 0, 0, 0, 0⟩
    dist_sensor := ⟨0, 0, 0, 0, 0⟩
    init_gv := false }

/-! ## Helper functions (Lander.cpp lines 191-219) -/

/-- `GetAvg`: the loop accumulates `count += 5 - i` and
`avg += (5 - i) * arr[i]` for `i = 0..4` and returns `avg / count`. -/
def GetAvg (arr : Hist) : ℚ :=
  let r := (List.range 5).foldl
    (fun (p : ℚ × ℤ) (i : Nat) =>
      (p.1 + ((5 : ℚ) - (i : ℚ)) * arr.get i, p.2 + ((5 : ℤ) - (i : ℤ))))
    ((0 : ℚ), (0 : ℤ))
  r.1 / (r.2 : ℚ)

/-- `ReduceNoise`: `(avg + 3 * sensor) / 4`. -/
def ReduceNoise (avg sensor : ℚ) : ℚ := (avg + 3 * sensor) / 4

/-- `IsOutlier`:
`(val/avg > (1 + delta) || val/avg < (1 - delta)) ? false : true`. -/
def IsOutlier (avg val delta : ℚ) : Bool :=
  if (fdiv val avg).gt (FVal.fin (1 + delta)) || (fdiv val avg).lt (FVal.fin (1 - delta))
  then false else true

/-- `UpdateHistory`: `his[i] = his[i-1]` for `i = 4` down to `1`, then
`his[0] = val`; returns `val` and the updated array. -/
def UpdateHistory (val : ℚ) (his : Hist) : ℚ × Hist :=
  let shifted := [4, 3, 2, 1].foldl (fun (h : Hist) (i : Nat) => h.set i (h.get (i - 1))) his
  (val, shifted.set 0 val)

/-! ## The four estimate functions (Lander.cpp lines 221-367) -/

/-- Lines 246-255 of `Velocity_X_R`: the estimate derived from the X position.
`x_r` is the fused value computed at the top of the function. -/
def Velocity_X_R_derived (env : Sim) (x_r : ℚ) (s : State) : ℚ × State :=
  let pos_avg := GetAvg s.xvel_sensor
  let x_pos := ReduceNoise pos_avg env.Position_X
  let u := UpdateHistory (x_pos - s.xpos_sensor.get 0) s.xvel_sensor
  let s1 := { s with xvel_sensor := u.2 }
  let x_r2 := u.1
  if !s1.broken.get 2 then (x_r2, s1) else ((x_r + x_r2) / 2, s1)

/-- `Velocity_X_R` (lines 223-256). -/
def Velocity_X_R (env : Sim) (s : State) : ℚ × State :=
  let avg := GetAvg s.xvel_sensor
  let x_sen := env.Velocity_X
  let x_r := ReduceNoise avg x_sen
  if !s.broken.get 0 then
    let works := IsOutlier avg x_r 0.25
    if works then
      let u := UpdateHistory x_r s.xvel_sensor
      (u.1, { s with xvel_sensor := u.2 })
    else Velocity_X_R_derived env x_r { s with broken := s.broken.set 0 false }
  else Velocity_X_R_derived env x_r s

/-- Lines 283-292 of `Velocity_Y_R`: the estimate derived from the Y position. -/
def Velocity_Y_R_derived (env : Sim) (y_r : ℚ) (s : State) : ℚ × State :=
  let pos_avg := GetAvg s.ypos_sensor
  let y_pos := ReduceNoise pos_avg env.Position_Y
  let u := UpdateHistory (y_pos - s.ypos_sensor.get 0) s.yvel_sensor
  let s1 := { s with yvel_sensor := u.2 }
  let y_r2 := u.1
  if !s1.broken.get 3 then (y_r2, s1) else ((y_r + y_r2) / 2, s1)

/-- `Velocity_Y_R` (lines 260-293). -/
def Velocity_Y_R (env : Sim) (s : State) : ℚ × State :=
  let avg := GetAvg s.yvel_sensor
  let y_sen := env.Velocity_Y
  let y_r := ReduceNoise avg y_sen
  if !s.broken.get 1 then
    let works := IsOutlier avg y_r 0.25
    if works then
      let u := UpdateHistory y_r s.yvel_sensor
      (u.1, { s with yvel_sensor := u.2 })
    else Velocity_Y_R_derived env y_r { s with broken := s.broken.set 1 false }
  else Velocity_Y_R_derived env y_r s

/-- Lines 320-329 of `Position_X_R`: the estimate derived from the X velocity. -/
def Position_X_R_derived (env : Sim) (x_r : ℚ) (s : State) : ℚ × State :=
  let vel_avg := GetAvg s.xvel_sensor
  let x_vel := ReduceNoise vel_avg env.Velocity_X
  let u := UpdateHistory (s.xpos_sensor.get 0 + x_vel) s.xpos_sensor
  let s1 := { s with xpos_sensor := u.2 }
  let x_r2 := u.1
  if !s1.broken.get 0 then (x_r2, s1) else ((x_r + x_r2) / 2, s1)

/-- `Position_X_R` (lines 297-330). -/
def Position_X_R (env : Sim) (s : State) : ℚ × State :=
  let avg := GetAvg s.xpos_sensor
  let x_sen := env.Position_X
  let x_r := ReduceNoise avg x_sen
  if !s.broken.get 2 then
    let works := IsOutlier avg x_r 0.25
    if works then
      let u := UpdateHistory x_r s.xpos_sensor
      (u.1, { s with xpos_sensor := u.2 })
    else Position_X_R_derived env x_r { s with broken := s.broken.set 2 false }
  else Position_X_R_derived env x_r s

/-- Lines 357-366 of `Position_Y_R`: the estimate derived from the Y velocity.
The last test reads `broken[0]`, as the source does. -/
def Position_Y_R_derived (env : Sim) (y_r : ℚ) (s : State) : ℚ × State :=
  let vel_avg := GetAvg s.yvel_sensor
  let y_vel := ReduceNoise vel_avg env.Velocity_Y
  let u := UpdateHistory (s.ypos_sensor.get 0 + y_vel) s.ypos_sensor
  let s1 := { s with ypos_sensor := u.2 }
  let y_r2 := u.1
  if !s1.broken.get 0 then (y_r2, s1) else ((y_r + y_r2) / 2, s1)

/-- `Position_Y_R` (lines 334-367). -/
def Position_Y_R (env : Sim) (s : State) : ℚ × State :=
  let avg := GetAvg s.ypos_sensor
  let y_sen := env.Position_Y
  let y_r := ReduceNoise avg y_sen
  if !s.broken.get 3 then
    let works := IsOutlier avg y_r 0.25
    if works then
      let u := UpdateHistory y_r s.ypos_sensor
      (u.1, { s with ypos_sensor := u.2 })
    else Position_Y_R_derived env y_r { s with broken := s.broken.set 3 false }
  else Position_Y_R_derived env y_r s

/-! ## Lander_Control (Lander.cpp lines 369-507) -/

/-- Lines 421-431: on the first call every history is filled with the current
reading of its sensor and `init_gv` is set. -/
def Lander_Control_seed (env : Sim) (s : State) : State :=
  if !s.init_gv then
    let s1 := (List.range 5).foldl
      (fun (t : State) (i : Nat) =>
        { t with
          xvel_sensor := t.xvel_sensor.set i env.Velocity_X
          yvel_sensor := t.yvel_sensor.set i env.Velocity_Y
          xpos_sensor := t.xpos_sensor.set i env.Position_X
          ypos_sensor := t.ypos_sensor.set i env.Position_Y
          angle_sensor := t.angle_sensor.set i env.Angle
          dist_sensor := t.dist_sensor.set i env.RangeDist })
      s
    { s1 with init_gv := true }
  else s

/-- The local variables of `Lander_Control` after line 454. -/
structure Locals where
  xpr : ℚ
  ypr : ℚ
  xvr : ℚ
  yvr : ℚ
  VXlim : ℚ
  VYlim : ℚ

/-- Lines 433-454: the four estimates and the two velocity limits. -/
def Lander_Control_limits (env : Sim) (s : State) : Locals × State :=
  let r1 := Position_X_R env s
  let xpr := r1.1
  let VXlim : ℚ :=
    if |xpr - env.PLAT_X| > 200 then 25
    else if |xpr - env.PLAT_X| > 100 then 15
    else 5
  let r2 := Position_Y_R env r1.2
  let ypr := r2.1
  let VYlim0 : ℚ :=
    if env.PLAT_Y - ypr > 200 then -20
    else if env.PLAT_Y - ypr > 100 then -10
    else -4
  let r3 := Velocity_X_R env r2.2
  let xvr := r3.1
  let r4 := Velocity_Y_R env r3.2
  let yvr := r4.1
  let VYlim : ℚ :=
    if (fdiv |env.PLAT_X - xpr| |xvr|).gt (fdiv (1.25 * |env.PLAT_Y - ypr|) |yvr|) then 0
    else VYlim0
  ({ xpr := xpr, ypr := ypr, xvr := xvr, yvr := yvr, VXlim := VXlim, VYlim := VYlim }, r4.2)

/-- Lines 468-506: the rotation gate, then the side thrusters and the main
thruster.  The result lists the actuator calls in the order they are made. -/
def Lander_Control_actuate (env : Sim) (l : Locals) : List Cmd :=
  if env.Angle > 1 ∧ env.Angle < 359 then
    (if env.Angle ≥ 180 then [Cmd.Rotate (360 - env.Angle)] else [Cmd.Rotate (-env.Angle)])
  else
    (if l.xpr > env.PLAT_X then
      [Cmd.Left_Thruster 0] ++
        (if l.xvr > -l.VXlim then [Cmd.Right_Thruster ((l.VXlim + min 0 l.xvr) / l.VXlim)]
         else [Cmd.Right_Thruster 0, Cmd.Left_Thruster |l.VXlim - l.xvr|])
     else
      [Cmd.Right_Thruster 0] ++
        (if l.xvr < l.VXlim then [Cmd.Left_Thruster ((l.VXlim - max 0 l.xvr) / l.VXlim)]
         else [Cmd.Left_Thruster 0, Cmd.Right_Thruster |l.VXlim - l.xvr|]))
    ++ (if l.yvr < l.VYlim then [Cmd.Main_Thruster 1.0] else [Cmd.Main_Thruster 0])

/-- `Lander_Control`: the actuator calls of one tick and the globals after it. -/
def Lander_Control (env : Sim) (s : State) : List Cmd × State :=
  let r := Lander_Control_limits env (Lander_Control_seed env s)
  (Lander_Control_actuate env r.1, r.2)

/-! ## Safety_Override (Lander.cpp lines 509-628) -/

/-- The minimum search `for (i = lo; i < hi; i++)
if (SONAR_DIST[i] > -1 && SONAR_DIST[i] < dmin) dmin = SONAR_DIST[i];`
started from `dmin`. -/
def sonarScan (sonar : Nat → ℚ) (lo hi : Nat) (dmin : ℚ) : ℚ :=
  (List.range' lo (hi - lo)).foldl
    (fun (d : ℚ) (i : Nat) => if sonar i > -1 ∧ sonar i < d then sonar i else d) dmin

/-- Lines 546-549: `DistLimit = fmax(75, Vx*Vx + Vy*Vy)`. -/
def Safety_Override_DistLimit (env : Sim) : ℚ :=
  max 75 (env.Velocity_X * env.Velocity_X + env.Velocity_Y * env.Velocity_Y)

/-- Lines 564-574: `dmin` of the horizontal check. -/
def Safety_Override_dminH (env : Sim) : ℚ :=
  if env.Velocity_X > 0 then sonarScan env.SONAR_DIST 5 14 1000000
  else sonarScan env.SONAR_DIST 22 32 1000000

/-- Lines 599-611: `dmin` of the vertical check. -/
def Safety_Override_dminV (env : Sim) : ℚ :=
  if env.Velocity_Y > 5 then
    sonarScan env.SONAR_DIST 32 36 (sonarScan env.SONAR_DIST 0 5 1000000)
  else sonarScan env.SONAR_DIST 14 22 1000000

/-- Lines 598-627: the vertical check. -/
def Safety_Override_vertical (env : Sim) : List Cmd :=
  if Safety_Override_dminV env < Safety_Override_DistLimit env then
    if env.Angle > 1 ∨ env.Angle > 359 then
      (if env.Angle ≥ 180 then [Cmd.Rotate (360 - env.Angle)] else [Cmd.Rotate (-env.Angle)])
    else if env.Velocity_Y > 2.0 then [Cmd.Main_Thruster 0.0]
    else [Cmd.Main_Thruster 1.0]
  else []

/-- `Safety_Override`: the actuator calls of one invocation, in order. -/
def Safety_Override (env : Sim) : List Cmd :=
  if |env.PLAT_X - env.Position_X| < 150 ∧ |env.PLAT_Y - env.Position_Y| < 150 then []
  else if Safety_Override_dminH env
      < Safety_Override_DistLimit env * max 0.25 (min (|env.Velocity_X| / 5.0) 1) then
    if env.Angle > 1 ∧ env.Angle < 359 then
      (if env.Angle ≥ 180 then [Cmd.Rotate (360 - env.Angle)] else [Cmd.Rotate (-env.Angle)])
    else
      (if env.Velocity_X > 0 then [Cmd.Right_Thruster 1.0, Cmd.Left_Thruster 0.0]
       else [Cmd.Left_Thruster 1.0, Cmd.Right_Thruster 0.0])
      ++ Safety_Override_vertical env
  else Safety_Override_vertical env

/-! ## Vocabulary of the claims -/

/-- The four channels that have an estimate function. -/
inductive Chan where
  | velX
  | velY
  | posX
  | posY
deriving DecidableEq

/-- The index of a channel in `broken`. -/
def Chan.idx : Chan → Nat
  | Chan.velX => 0
  | Chan.velY => 1
  | Chan.posX => 2
  | Chan.posY => 3

/-- The complementary channel: velocity and position of the same axis. -/
def Chan.comp : Chan → Chan
  | Chan.velX => Chan.posX
  | Chan.velY => Chan.posY
  | Chan.posX => Chan.velX
  | Chan.posY => Chan.velY

/-- The history array of a channel. -/
def State.hist (s : State) : Chan → Hist
  | Chan.velX => s.xvel_sensor
  | Chan.velY => s.yvel_sensor
  | Chan.posX => s.xpos_sensor
  | Chan.posY => s.ypos_sensor

/-- A channel is marked failed when its `broken` entry is `true`: the
functions guard their trusted branch with `!broken[i]`. -/
def State.failed (s : State) (c : Chan) : Bool := s.broken.get c.idx

/-- The raw reading of a channel's own sensor. -/
def Sim.raw (env : Sim) : Chan → ℚ
  | Chan.velX => env.Velocity_X
  | Chan.velY => env.Velocity_Y
  | Chan.posX => env.Position_X
  | Chan.posY => env.Position_Y

/-- The estimate function of a channel. -/
def estimate (c : Chan) (env : Sim) (s : State) : ℚ × State :=
  match c with
  | Chan.velX => Velocity_X_R env s
  | Chan.velY => Velocity_Y_R env s
  | Chan.posX => Position_X_R env s
  | Chan.posY => Position_Y_R env s

/-- The failed path of a channel's estimate function, entered with the fused
value the function computes first. -/
def estimate_derived (c : Chan) (env : Sim) (s : State) : ℚ × State :=
  match c with
  | Chan.velX =>
      Velocity_X_R_derived env (ReduceNoise (GetAvg s.xvel_sensor) env.Velocity_X) s
  | Chan.velY =>
      Velocity_Y_R_derived env (ReduceNoise (GetAvg s.yvel_sensor) env.Velocity_Y) s
  | Chan.posX =>
      Position_X_R_derived env (ReduceNoise (GetAvg s.xpos_sensor) env.Position_X) s
  | Chan.posY =>
      Position_Y_R_derived env (ReduceNoise (GetAvg s.ypos_sensor) env.Position_Y) s

/-- A sequence of calls of estimate functions, each with the sensor readings
of its tick, run from `s`. -/
def runCalls (calls : List (Chan × Sim)) (s : State) : State :=
  calls.foldl (fun (t : State) (p : Chan × Sim) => (estimate p.1 p.2 t).2) s

/-- Pushing the values `vs` in order into a history. -/
def pushAll (vs : List ℚ) (his : Hist) : Hist :=
  vs.foldl (fun (h : Hist) (v : ℚ) => (UpdateHistory v h).2) his

/-- The power argument of a thruster call, if the call is one. -/
def Cmd.powerArg : Cmd → Option ℚ
  | Cmd.Main_Thruster p => some p
  | Cmd.Left_Thruster p => some p
  | Cmd.Right_Thruster p => some p
  | Cmd.Rotate _ => none

/-- Is the call a `Rotate`? -/
def Cmd.isRotate : Cmd → Bool
  | Cmd.Rotate _ => true
  | _ => false

/-- Is the call a `Main_Thruster`? -/
def Cmd.isMain : Cmd → Bool
  | Cmd.Main_Thruster _ => true
  | _ => false

/-- Is the call a `Left_Thruster`? -/
def Cmd.isLeft : Cmd → Bool
  | Cmd.Left_Thruster _ => true
  | _ => false

/-- Is the call a `Right_Thruster`? -/
def Cmd.isRight : Cmd → Bool
  | Cmd.Right_Thruster _ => true
  | _ => false

/-- The power a thruster is left at: the argument of the last call among
those selected by `k`, if there is one. -/
def lastPower (k : Cmd → Bool) (cmds : List Cmd) : Option ℚ :=
  ((cmds.filter k).getLast?).bind Cmd.powerArg

/-- No channel marked failed. -/
def flagsClear : Flags := ⟨false, false, false, false, false, false⟩

/-- Sensor readings of a quiet tick: velocities 24 and -10, position (500, 100),
upright, platform at (0, 400). -/
def simQuiet : Sim :=
  { Velocity_X := 24, Velocity_Y := -10, Position_X := 500, Position_Y := 100
    Angle := 0, RangeDist := 300, SONAR_DIST := fun _ => -1
    PLAT_X := 0, PLAT_Y := 400 }

/-- A seeded state with no channel marked failed. -/
def stateClear : State :=
  { broken := flagsClear
    xvel_sensor := ⟨10, 20, 30, 40, 50⟩
    yvel_sensor := ⟨-10, -10, -10, -10, -10⟩
    xpos_sensor := ⟨500, 500, 500, 500, 500⟩
    ypos_sensor := ⟨100, 100, 100, 100, 100⟩
    angle_sensor := ⟨0, 0, 0, 0, 0⟩
    dist_sensor := ⟨300, 300, 300, 300, 300⟩
    init_gv := true }

/-- The state `stateClear` with every channel marked failed. -/
def stateFailed : State := { stateClear with broken := ⟨true, true, true, true, true, true⟩ }

/-- A tick in which the X velocity sensor reads twice the average of its
history. -/
def simJump : Sim := { simQuiet with Velocity_X := 2 }

/-- A seeded state with no channel marked failed and X velocity history all 1. -/
def stateUnit : State := { stateClear with xvel_sensor := ⟨1, 1, 1, 1, 1⟩ }

/-- A state in which only the X velocity channel is marked failed. -/
def stateVelXFailed : State :=
  { stateClear with
    broken := ⟨true, false, false, false, false, false⟩
    xvel_sensor := ⟨10, 10, 10, 10, 10⟩
    xpos_sensor := ⟨100, 100, 100, 100, 100⟩ }

/-- A tick in which the X position sensor reads 100. -/
def simPos100 : Sim := { simQuiet with Position_X := 100 }

/-- A state in which the Y velocity and Y position channels are marked failed
and the X velocity channel is not. -/
def stateYFailed : State :=
  { stateClear with broken := ⟨false, true, false, true, false, false⟩ }

/-- The state `stateYFailed` with the X velocity channel marked failed too. -/
def stateXYFailed : State :=
  { stateClear with broken := ⟨true, true, false, true, false, false⟩ }

/-- The first tick of a run: 500 to the right of the platform, moving left at
60, upright. -/
def simFast : Sim :=
  { Velocity_X := -60, Velocity_Y := 0, Position_X := 500, Position_Y := 100
    Angle := 0, RangeDist := 300, SONAR_DIST := fun _ => -1
    PLAT_X := 0, PLAT_Y := 400 }

/-- The tick `simQuiet` with the lander tilted by 90 degrees. -/
def simTilted : Sim := { simQuiet with Angle := 90 }

/-- A tick far from the platform with every sonar entry invalid and the
horizontal speed 2000. -/
def simHuge : Sim :=
  { Velocity_X := 2000, Velocity_Y := 0, Position_X := 500, Position_Y := 100
    Angle := 0, RangeDist := 300, SONAR_DIST := fun _ => -1
    PLAT_X := 0, PLAT_Y := 400 }

/-- A tick far from the platform with every sonar entry invalid and the
velocity (30, 10). -/
def simBlind : Sim := { simHuge with Velocity_X := 30, Velocity_Y := 10 }

/-- A first tick with the constant nonzero readings 10, -10, 100, 100. -/
def simSeed : Sim :=
  { Velocity_X := 10, Velocity_Y := -10, Position_X := 100, Position_Y := 100
    Angle := 0, RangeDist := 300, SONAR_DIST := fun _ => -1
    PLAT_X := 400, PLAT_Y := 400 }

/-- A tick far from the platform, tilted by 200 degrees, with a close surface
on every sonar entry. -/
def simClose : Sim :=
  { Velocity_X := 30, Velocity_Y := 30, Position_X := 500, Position_Y := 100
    Angle := 200, RangeDist := 1, SONAR_DIST := fun _ => 1
    PLAT_X := 0, PLAT_Y := 400 }

/-- A tick outside the suppression box, at rest, with the angle 359.5 and a
surface at distance 1 on the sonar entries 14..21 only. -/
def simGround : Sim :=
  { Velocity_X := 0, Velocity_Y := 0, Position_X := 500, Position_Y := 100
    Angle := 719 / 2, RangeDist := 1
    SONAR_DIST := fun (i : Nat) => if 14 ≤ i ∧ i < 22 then 1 else -1
    PLAT_X := 0, PLAT_Y := 400 }

/-! ## Basic facts about the helpers -/

theorem GetAvg_eq (a : Hist) :
    GetAvg a = (5 * a.h0 + 4 * a.h1 + 3 * a.h2 + 2 * a.h3 + a.h4) / 15 := by
  simp [GetAvg, List.range_succ, Hist.get]
  ring

theorem UpdateHistory_eq (v : ℚ) (a : Hist) :
    UpdateHistory v a = (v, ⟨v, a.h0, a.h1, a.h2, a.h3⟩) := by
  simp [UpdateHistory, Hist.set, Hist.get]

theorem Flags_set_false_of_get (f : Flags) (i : Nat) (h : f.get i = false) :
    f.set i false = f := by
  cases f
  unfold Flags.get at h
  unfold Flags.set
  split <;> simp_all

/-- No estimate function ever changes `broken`: the only write stores
`false` into an entry that is already `false`. -/
theorem estimate_broken (c : Chan) (env : Sim) (s : State) :
    (estimate c env s).2.broken = s.broken := by
  cases c <;>
    simp only [estimate, Velocity_X_R, Velocity_Y_R, Position_X_R, Position_Y_R,
      Velocity_X_R_derived, Velocity_Y_R_derived, Position_X_R_derived,
      Position_Y_R_derived] <;>
    (repeat' split) <;> simp_all [Flags_set_false_of_get]

theorem runCalls_broken (calls : List (Chan × Sim)) (s : State) :
    (runCalls calls s).broken = s.broken := by
  induction calls generalizing s with
  | nil => rfl
  | cons p ps ih =>
    have h := ih (estimate p.1 p.2 s).2
    simp only [runCalls, List.foldl_cons] at h ⊢
    rw [h, estimate_broken]

/-- On a channel whose flag is set the estimate function is its failed path. -/
theorem estimate_of_failed (c : Chan) (env : Sim) (s : State) (h : s.failed c = true) :
    estimate c env s = estimate_derived c env s := by
  cases c <;>
    simp_all [State.failed, Chan.idx, estimate, estimate_derived, Velocity_X_R, Velocity_Y_R,
      Position_X_R, Position_Y_R]

/-- C2 fails on the code: in `stateUnit` the X velocity channel is not marked
failed, the reading 2 gives `fused / avg = 7/4`, outside `[0.75, 1.25]`, and
after the call `broken[0]` is still `false`: line 243 stores `false`.  The
value pushed is the one of the failed path. -/
theorem C2_outlier_not_latched :
    stateUnit.failed Chan.velX = false ∧
    GetAvg (stateUnit.hist Chan.velX) = 1 ∧
    ReduceNoise (GetAvg (stateUnit.hist Chan.velX)) (simJump.raw Chan.velX) = 7 / 4 ∧
    ¬ ((7 / 4 : ℚ) / 1 ≤ 1.25) ∧
    (estimate Chan.velX simJump stateUnit).2.failed Chan.velX = false ∧
    (estimate Chan.velX simJump stateUnit).2.broken.get 0 = false ∧
    ((estimate Chan.velX simJump stateUnit).2.hist Chan.velX).h0
      = ((estimate_derived Chan.velX simJump stateUnit).2.hist Chan.velX).h0 := by
  norm_num [State.failed, Chan.idx, stateUnit, stateClear, flagsClear, Flags.get, Flags.set,
    State.hist, GetAvg_eq, ReduceNoise, Sim.raw, simJump, simQuiet, estimate, estimate_derived,
    Velocity_X_R, Velocity_X_R_derived, IsOutlier, fdiv, FVal.gt, FVal.lt, UpdateHistory_eq,
    Hist.get]

/-- C3: once a channel is marked failed, after every sequence of calls of the
four estimate functions with any sensor readings the channel is still marked
failed, and a call of its estimate function is the failed path (lines 246-255
and their siblings): the directly fused value is not pushed. -/
theorem C3_latch_one_way (c : Chan) (calls : List (Chan × Sim)) (s : State)
    (h : s.failed c = true) :
    (runCalls calls s).failed c = true ∧
    ∀ env : Sim, estimate c env (runCalls calls s) = estimate_derived c env (runCalls calls s) := by
  have hf : (runCalls calls s).failed c = true := by
    unfold State.failed at h ⊢
    rw [runCalls_broken]
    exact h
  exact ⟨hf, fun env => estimate_of_failed c env _ hf⟩

/-- Witness of C3: the X position channel of `stateFailed` through three
calls. -/
theorem C3_latch_one_way_witness :
    (runCalls [(Chan.posX, simQuiet), (Chan.velX, simJump), (Chan.posX, simJump)]
      stateFailed).failed Chan.posX = true ∧
    ∀ env : Sim,
      estimate Chan.posX env
        (runCalls [(Chan.posX, simQuiet), (Chan.velX, simJump), (Chan.posX, simJump)]
          stateFailed)
      = estimate_derived Chan.posX env
        (runCalls [(Chan.posX, simQuiet), (Chan.velX, simJump), (Chan.posX, simJump)]
          stateFailed) :=
  C3_latch_one_way Chan.posX [(Chan.posX, simQuiet), (Chan.velX, simJump), (Chan.posX, simJump)]
    stateFailed (by simp [State.failed, Chan.idx, stateFailed, Flags.get])

/-- C4 fails on the code for `Velocity_X_R`: in `stateVelXFailed` (velocity
history all 10, position history all 100) with the position reading 100, the
claim's value `fused_position - p0` is 0, and the code pushes -45/2, because
line 248 averages `xvel_sensor`; with the velocity history all 20 and
everything else equal it pushes -20, so the result depends on the velocity
history. -/
theorem C4_velX_derived_from_velocity_history :
    stateVelXFailed.failed Chan.velX = true ∧
    ReduceNoise (GetAvg stateVelXFailed.xpos_sensor) simPos100.Position_X
      - stateVelXFailed.xpos_sensor.h0 = 0 ∧
    (Velocity_X_R simPos100 stateVelXFailed).2.xvel_sensor.h0 = -45 / 2 ∧
    (Velocity_X_R simPos100
      { stateVelXFailed with xvel_sensor := ⟨20, 20, 20, 20, 20⟩ }).2.xvel_sensor.h0 = -20 := by
  norm_num [State.failed, Chan.idx, stateVelXFailed, stateClear, Flags.get, GetAvg_eq,
    ReduceNoise, simPos100, simQuiet, Velocity_X_R, Velocity_X_R_derived, UpdateHistory_eq,
    Hist.get]

/-- C5 fails on the code for `Position_Y_R`: in `stateYFailed` the Y position
channel and its complementary Y velocity channel are both marked failed, the
fused value is 100 and the derived value 90, the claim gives 95 and the code
returns 90, because line 362 tests `broken[0]`; marking the X velocity channel
failed (`stateXYFailed`) changes the result to 95. -/
theorem C5_posY_reads_velX_flag :
    stateYFailed.failed Chan.posY = true ∧
    stateYFailed.failed Chan.posY.comp = true ∧
    ReduceNoise (GetAvg stateYFailed.ypos_sensor) simQuiet.Position_Y = 100 ∧
    ((Position_Y_R simQuiet stateYFailed).2.ypos_sensor.h0 = 90) ∧
    (Position_Y_R simQuiet stateYFailed).1 = 90 ∧
    (Position_Y_R simQuiet stateXYFailed).1 = 95 := by
  norm_num [State.failed, Chan.idx, Chan.comp, stateYFailed, stateXYFailed, stateClear,
    Flags.get, GetAvg_eq, ReduceNoise, simQuiet, Position_Y_R, Position_Y_R_derived,
    UpdateHistory_eq, Hist.get]

theorem take_append_cons_take (n : Nat) (xs ys : List ℚ) (v : ℚ) :
    (xs ++ v :: ys.take n).take (n + 1) = (xs ++ v :: ys).take (n + 1) := by
  induction xs generalizing n with
  | nil => simp [List.take_take]
  | cons x xs ih =>
    cases n with
    | zero => simp
    | succ m =>
      simp only [List.cons_append, List.take_succ_cons, List.cons.injEq, true_and]
      have h1 := ih m
      have h2 : (xs ++ v :: List.take (m + 1) ys).take (m + 1)
          = (xs ++ v :: ys).take (m + 1) := by
        rw [List.take_append_eq_append_take, List.take_append_eq_append_take]
        congr 1
        cases hk : m + 1 - xs.length with
        | zero => simp
        | succ k =>
          simp only [List.take_succ_cons, List.cons.injEq, true_and, List.take_take]
          congr 1
          omega
      exact h2

theorem pushAll_toList (vs : List ℚ) (his : Hist) :
    (pushAll vs his).toList = (vs.reverse ++ his.toList).take 5 := by
  induction vs generalizing his with
  | nil => simp [pushAll, Hist.toList]
  | cons v vs ih =>
    have h := ih (UpdateHistory v his).2
    simp only [pushAll, List.foldl_cons] at h ⊢
    rw [h, UpdateHistory_eq]
    have h4 : ([v, his.h0, his.h1, his.h2, his.h3] : List ℚ) = v :: his.toList.take 4 := by
      simp [Hist.toList]
    simp only [Hist.toList] at h4 ⊢
    rw [h4, List.reverse_cons, List.append_assoc]
    exact take_append_cons_take 4 vs.reverse _ v

/-- C6: `UpdateHistory(v, history)` returns `v` and leaves the history as
`[v, h0, h1, h2, h3]`; after pushing `v1, ..., vN` in order with `N ≥ 5` the
history is `[vN, vN-1, vN-2, vN-3, vN-4]`, the first five entries of the
reversed sequence, whatever the history was before. -/
theorem C6_push_keeps_five_most_recent (his : Hist) :
    (∀ v : ℚ, (UpdateHistory v his).1 = v ∧
      (UpdateHistory v his).2.toList = [v, his.h0, his.h1, his.h2, his.h3]) ∧
    (∀ vs : List ℚ, (pushAll vs his).toList.length = 5) ∧
    (∀ vs : List ℚ, 5 ≤ vs.length → (pushAll vs his).toList = vs.reverse.take 5) := by
  refine ⟨fun v => ?_, fun vs => ?_, fun vs hlen => ?_⟩
  · rw [UpdateHistory_eq]
    exact ⟨rfl, rfl⟩
  · simp [Hist.toList]
  · rw [pushAll_toList, List.take_append_of_le_length]
    simpa using hlen

/-- Witness of C6: seven values pushed into the history `[10, 20, 30, 40, 50]`
leave `[7, 6, 5, 4, 3]`. -/
theorem C6_push_keeps_five_most_recent_witness :
    (pushAll [1, 2, 3, 4, 5, 6, 7] ⟨10, 20, 30, 40, 50⟩).toList = [7, 6, 5, 4, 3] :=
  (C6_push_keeps_five_most_recent ⟨10, 20, 30, 40, 50⟩).2.2 [1, 2, 3, 4, 5, 6, 7] (by decide)

/-- C8 fails on the code: on the first tick of a run (`State.initial`) with
the readings `simFast` the estimates are `xpr = 470`, `xvr = -70` and
`VXlim = 25`, the braking branch of line 487 is taken and
`Left_Thruster(fabs(VXlim - xvr))` is called with power 95, outside `[0, 1]`. -/
theorem C8_brake_power_out_of_range :
    (Lander_Control simFast State.initial).1
      = [Cmd.Left_Thruster 0, Cmd.Right_Thruster 0, Cmd.Left_Thruster 95,
          Cmd.Main_Thruster 0] ∧
    (Cmd.Left_Thruster 95).powerArg = some 95 ∧ ¬ ((95 : ℚ) ≤ 1) := by
  refine ⟨?_, rfl, by norm_num⟩
  norm_num [Lander_Control, Lander_Control_limits, Lander_Control_seed, Lander_Control_actuate,
    simFast, State.initial, List.range_succ, Hist.set, Hist.get, Flags.get,
    Position_X_R, Position_Y_R, Velocity_X_R, Velocity_Y_R, Position_X_R_derived,
    Position_Y_R_derived, Velocity_X_R_derived, Velocity_Y_R_derived, GetAvg_eq, ReduceNoise,
    UpdateHistory_eq, fdiv, FVal.gt, abs_of_nonneg, abs_of_nonpos]

/-- C9: in a tick whose measured angle satisfies `1 < angle < 359`,
`Lander_Control` issues exactly one `Rotate` call and no `Main_Thruster`,
`Left_Thruster` or `Right_Thruster` call; for an angle in `[0, 1]` or in
`[359, 360)` it issues no `Rotate` call and calls each of the three
thrusters. -/
theorem C9_rotation_gate (env : Sim) (s : State) :
    (1 < env.Angle ∧ env.Angle < 359 →
      (Lander_Control env s).1.countP Cmd.isRotate = 1 ∧
      (Lander_Control env s).1.countP Cmd.isMain = 0 ∧
      (Lander_Control env s).1.countP Cmd.isLeft = 0 ∧
      (Lander_Control env s).1.countP Cmd.isRight = 0) ∧
    ((0 ≤ env.Angle ∧ env.Angle ≤ 1) ∨ (359 ≤ env.Angle ∧ env.Angle < 360) →
      (Lander_Control env s).1.countP Cmd.isRotate = 0 ∧
      0 < (Lander_Control env s).1.countP Cmd.isMain ∧
      0 < (Lander_Control env s).1.countP Cmd.isLeft ∧
      0 < (Lander_Control env s).1.countP Cmd.isRight) := by
  constructor
  · intro h
    have hg : env.Angle > 1 ∧ env.Angle < 359 := h
    simp only [Lander_Control, Lander_Control_actuate, if_pos hg]
    split <;> simp [Cmd.isRotate, Cmd.isMain, Cmd.isLeft, Cmd.isRight]
  · intro h
    have hg : ¬ (env.Angle > 1 ∧ env.Angle < 359) := by
      rintro ⟨h1, h2⟩
      rcases h with h | h
      · exact absurd h1 (not_lt.mpr h.2)
      · exact absurd h2 (not_lt.mpr h.1)
    simp only [Lander_Control, Lander_Control_actuate, if_neg hg]
    (repeat' split) <;>
      simp [List.countP_cons, Cmd.isRotate, Cmd.isMain, Cmd.isLeft, Cmd.isRight]

/-- Witness of C9: the tilted tick `simTilted` (angle 90) rotates only, and the
upright tick `simQuiet` (angle 0) commands the three thrusters. -/
theorem C9_rotation_gate_witness :
    ((Lander_Control simTilted stateClear).1.countP Cmd.isRotate = 1 ∧
      (Lander_Control simTilted stateClear).1.countP Cmd.isMain = 0 ∧
      (Lander_Control simTilted stateClear).1.countP Cmd.isLeft = 0 ∧
      (Lander_Control simTilted stateClear).1.countP Cmd.isRight = 0) ∧
    ((Lander_Control simQuiet stateClear).1.countP Cmd.isRotate = 0 ∧
      0 < (Lander_Control simQuiet stateClear).1.countP Cmd.isMain ∧
      0 < (Lander_Control simQuiet stateClear).1.countP Cmd.isLeft ∧
      0 < (Lander_Control simQuiet stateClear).1.countP Cmd.isRight) :=
  ⟨(C9_rotation_gate simTilted stateClear).1 (by norm_num [simTilted, simQuiet]),
   (C9_rotation_gate simQuiet stateClear).2 (Or.inl (by norm_num [simQuiet]))⟩

/-- A scan over entries that are all `-1` leaves `dmin` as it was. -/
theorem sonarScan_invalid (sonar : Nat → ℚ) (lo hi : Nat) (d : ℚ)
    (h : ∀ i, lo ≤ i → i < hi → sonar i = -1) : sonarScan sonar lo hi d = d := by
  unfold sonarScan
  have key : ∀ (l : List Nat), (∀ i ∈ l, sonar i = -1) →
      l.foldl (fun (d : ℚ) (i : Nat) => if sonar i > -1 ∧ sonar i < d then sonar i else d) d
        = d := by
    intro l
    induction l with
    | nil => intro _; rfl
    | cons a l ih =>
      intro hl
      have ha : sonar a = -1 := hl a (List.mem_cons_self a l)
      simp only [List.foldl_cons, ha, gt_iff_lt, lt_self_iff_false, false_and, if_false]
      exact ih (fun i hi => hl i (List.mem_cons_of_mem a hi))
  apply key
  intro i hi
  rw [List.mem_range'_1] at hi
  exact h i hi.1 (by omega)

/-- C12 as stated fails: on the tick `simHuge` every sonar entry is `-1` and
the position is outside the suppression box, both `dmin` stay at 1000000, and
with `Vx = 2000` the limit `DistLimit = 4000000` exceeds 1000000, so the
override fires the right thruster and the main thruster. -/
theorem C12_invalid_sonar_counterexample :
    (∀ i, simHuge.SONAR_DIST i = -1) ∧
    ¬ (|simHuge.PLAT_X - simHuge.Position_X| < 150
        ∧ |simHuge.PLAT_Y - simHuge.Position_Y| < 150) ∧
    Safety_Override_dminH simHuge = 1000000 ∧
    Safety_Override_dminV simHuge = 1000000 ∧
    Safety_Override simHuge
      = [Cmd.Right_Thruster 1, Cmd.Left_Thruster 0, Cmd.Main_Thruster 1] := by
  have hH : Safety_Override_dminH simHuge = 1000000 := by
    unfold Safety_Override_dminH
    split <;> exact sonarScan_invalid _ _ _ _ (fun _ _ _ => rfl)
  have hV : Safety_Override_dminV simHuge = 1000000 := by
    unfold Safety_Override_dminV
    split
    · rw [sonarScan_invalid simHuge.SONAR_DIST 0 5 _ (fun _ _ _ => rfl)]
      exact sonarScan_invalid _ _ _ _ (fun _ _ _ => rfl)
    · exact sonarScan_invalid _ _ _ _ (fun _ _ _ => rfl)
  refine ⟨fun _ => rfl, by norm_num [simHuge, abs_of_nonpos], hH, hV, ?_⟩
  unfold Safety_Override Safety_Override_vertical
  rw [hH, hV]
  norm_num [simHuge, Safety_Override_DistLimit, abs_of_nonpos, abs_of_nonneg]

/-- C12, amended: if every sonar entry in the index ranges scanned for the
current velocity equals `-1` and `Vx^2 + Vy^2 ≤ 1000000`, then `dmin` stays at
its initial value 1000000 in both checks and `Safety_Override` issues no
actuator call, for every position and angle. -/
theorem C12_invalid_sonar_no_override (env : Sim)
    (hH : ∀ i, (if env.Velocity_X > 0 then 5 ≤ i ∧ i < 14 else 22 ≤ i ∧ i < 32) →
      env.SONAR_DIST i = -1)
    (hV : ∀ i, (if env.Velocity_Y > 5 then (i < 5 ∨ (32 ≤ i ∧ i < 36)) else 14 ≤ i ∧ i < 22) →
      env.SONAR_DIST i = -1)
    (hspeed : env.Velocity_X * env.Velocity_X + env.Velocity_Y * env.Velocity_Y ≤ 1000000) :
    Safety_Override_dminH env = 1000000 ∧
    Safety_Override_dminV env = 1000000 ∧
    Safety_Override env = [] := by
  have h1 : Safety_Override_dminH env = 1000000 := by
    unfold Safety_Override_dminH
    split
    · rename_i hv
      exact sonarScan_invalid _ _ _ _ (fun i h1 h2 => hH i (by rw [if_pos hv]; exact ⟨h1, h2⟩))
    · rename_i hv
      exact sonarScan_invalid _ _ _ _ (fun i h1 h2 => hH i (by rw [if_neg hv]; exact ⟨h1, h2⟩))
  have h2 : Safety_Override_dminV env = 1000000 := by
    unfold Safety_Override_dminV
    split
    · rename_i hv
      rw [sonarScan_invalid _ 0 5 _ (fun i _ h2 => hV i (by rw [if_pos hv]; exact Or.inl h2))]
      exact sonarScan_invalid _ _ _ _
        (fun i h1 h2 => hV i (by rw [if_pos hv]; exact Or.inr ⟨h1, h2⟩))
    · rename_i hv
      exact sonarScan_invalid _ _ _ _ (fun i h1 h2 => hV i (by rw [if_neg hv]; exact ⟨h1, h2⟩))
  have hD : Safety_Override_DistLimit env ≤ 1000000 := by
    unfold Safety_Override_DistLimit
    exact max_le (by norm_num) hspeed
  have hD0 : 0 ≤ Safety_Override_DistLimit env := by
    unfold Safety_Override_DistLimit
    exact le_trans (by norm_num) (le_max_left _ _)
  have hscale : max (0.25 : ℚ) (min (|env.Velocity_X| / 5.0) 1) ≤ 1 :=
    max_le (by norm_num) (min_le_right _ _)
  have hvert : Safety_Override_vertical env = [] := by
    unfold Safety_Override_vertical
    rw [h2, if_neg (not_lt.mpr hD)]
  refine ⟨h1, h2, ?_⟩
  unfold Safety_Override
  split
  · rfl
  · rw [h1, hvert]
    have hprod : Safety_Override_DistLimit env * max 0.25 (min (|env.Velocity_X| / 5.0) 1)
        ≤ 1000000 := by
      calc Safety_Override_DistLimit env * max 0.25 (min (|env.Velocity_X| / 5.0) 1)
          ≤ Safety_Override_DistLimit env * 1 := mul_le_mul_of_nonneg_left hscale hD0
        _ = Safety_Override_DistLimit env := mul_one _
        _ ≤ 1000000 := hD
    rw [if_neg (not_lt.mpr hprod)]

/-- Witness of C12 (amended): the tick `simBlind`, every sonar entry invalid,
velocity (30, 10). -/
theorem C12_invalid_sonar_no_override_witness :
    Safety_Override_dminH simBlind = 1000000 ∧
    Safety_Override_dminV simBlind = 1000000 ∧
    Safety_Override simBlind = [] :=
  C12_invalid_sonar_no_override simBlind (fun _ _ => rfl) (fun _ _ => rfl)
    (by norm_num [simBlind, simHuge])

/-- On a channel whose flag is clear and whose fused value fails the band
test, the estimate function is its failed path. -/
theorem estimate_of_outlier (c : Chan) (env : Sim) (s : State) (h : s.failed c = false)
    (ho : IsOutlier (GetAvg (s.hist c)) (ReduceNoise (GetAvg (s.hist c)) (env.raw c)) 0.25
      = false) :
    estimate c env s = estimate_derived c env s := by
  have hs : ∀ i, s.broken.get i = false → ({ s with broken := s.broken.set i false } : State) = s := by
    intro i hi
    rw [Flags_set_false_of_get _ _ hi]
  cases c <;>
    simp_all [State.failed, Chan.idx, estimate, estimate_derived, Velocity_X_R, Velocity_Y_R,
      Position_X_R, Position_Y_R, State.hist, Sim.raw]

theorem GetAvg_const (a : ℚ) : GetAvg ⟨a, a, a, a, a⟩ = a := by
  rw [GetAvg_eq]
  ring

/-- C16 fails on the code: after `Lander_Control` has seeded the histories on
the first tick `simSeed` (readings 10, -10, 100, 100), all four channels are
marked failed, because `broken` is initialised to `true` (line 176); the
first call of each estimate function takes the failed path and returns
-25/4, -5, 105 and 95 instead of the readings, and `Position_X_R` pushes 110
instead of 100. -/
theorem C16_initial_flags_set :
    (∀ c : Chan, (Lander_Control_seed simSeed State.initial).failed c = true) ∧
    (∀ c : Chan, ((Lander_Control_seed simSeed State.initial).hist c).toList
      = [simSeed.raw c, simSeed.raw c, simSeed.raw c, simSeed.raw c, simSeed.raw c]) ∧
    (estimate Chan.velX simSeed (Lander_Control_seed simSeed State.initial)).1 = -25 / 4 ∧
    (estimate Chan.velY simSeed (Lander_Control_seed simSeed State.initial)).1 = -5 ∧
    (estimate Chan.posX simSeed (Lander_Control_seed simSeed State.initial)).1 = 105 ∧
    (estimate Chan.posY simSeed (Lander_Control_seed simSeed State.initial)).1 = 95 ∧
    ((estimate Chan.posX simSeed (Lander_Control_seed simSeed State.initial)).2.hist
      Chan.posX).h0 = 110 ∧
    (Lander_Control_limits simSeed (Lander_Control_seed simSeed State.initial)).1.xpr = 105 := by
  have hs : Lander_Control_seed simSeed State.initial =
      { broken := ⟨true, true, true, true, true, true⟩
        xvel_sensor := ⟨10, 10, 10, 10, 10⟩
        yvel_sensor := ⟨-10, -10, -10, -10, -10⟩
        xpos_sensor := ⟨100, 100, 100, 100, 100⟩
        ypos_sensor := ⟨100, 100, 100, 100, 100⟩
        angle_sensor := ⟨0, 0, 0, 0, 0⟩
        dist_sensor := ⟨300, 300, 300, 300, 300⟩
        init_gv := true } := by
    simp [Lander_Control_seed, State.initial, simSeed, List.range_succ, Hist.set]
  rw [hs]
  refine ⟨?_, ?_, ?_, ?_, ?_, ?_, ?_, ?_⟩
  · intro c
    cases c <;> rfl
  · intro c
    cases c <;> rfl
  all_goals
    norm_num [estimate, Lander_Control_limits, simSeed, State.hist, Flags.get, Hist.get,
      Position_X_R, Position_Y_R, Velocity_X_R, Velocity_Y_R, Position_X_R_derived,
      Position_Y_R_derived, Velocity_X_R_derived, Velocity_Y_R_derived, GetAvg_const,
      ReduceNoise, UpdateHistory_eq]

/-- C18: for `Position_X_R` and `Position_Y_R` on the failed path (the channel
is marked failed, or the fused value fails the band test), the value pushed
into the position history is `p0` plus the fused velocity
`(weighted average of the same-axis velocity history + 3 * raw velocity) / 4`,
the position history becomes `[derived, p0, p1, p2, p3]` and the velocity
history is unchanged. -/
theorem C18_position_derived (c : Chan) (env : Sim) (s : State)
    (hc : c = Chan.posX ∨ c = Chan.posY)
    (hpath : s.failed c = true ∨
      IsOutlier (GetAvg (s.hist c)) (ReduceNoise (GetAvg (s.hist c)) (env.raw c)) 0.25 = false) :
    ((estimate c env s).2.hist c).toList
      = [(s.hist c).h0 + (GetAvg (s.hist c.comp) + 3 * env.raw c.comp) / 4,
          (s.hist c).h0, (s.hist c).h1, (s.hist c).h2, (s.hist c).h3] ∧
    (estimate c env s).2.hist c.comp = s.hist c.comp := by
  have he : estimate c env s = estimate_derived c env s := by
    cases hf : s.failed c with
    | true => exact estimate_of_failed c env s hf
    | false =>
      rcases hpath with h | h
      · rw [hf] at h
        exact absurd h (by decide)
      · exact estimate_of_outlier c env s hf h
  rw [he]
  rcases hc with hc | hc <;> subst hc <;>
    constructor <;>
    simp only [estimate_derived, Position_X_R_derived, Position_Y_R_derived, UpdateHistory_eq,
      State.hist, Chan.comp, Sim.raw, Hist.get, ReduceNoise, Hist.toList] <;>
    split <;> rfl

/-- Witness of C18: the X position channel of `stateFailed` on the tick
`simQuiet`. -/
theorem C18_position_derived_witness :
    ((estimate Chan.posX simQuiet stateFailed).2.hist Chan.posX).toList
      = [(stateFailed.hist Chan.posX).h0
            + (GetAvg (stateFailed.hist Chan.posX.comp) + 3 * simQuiet.raw Chan.posX.comp) / 4,
          (stateFailed.hist Chan.posX).h0, (stateFailed.hist Chan.posX).h1,
          (stateFailed.hist Chan.posX).h2, (stateFailed.hist Chan.posX).h3] ∧
    (estimate Chan.posX simQuiet stateFailed).2.hist Chan.posX.comp
      = stateFailed.hist Chan.posX.comp :=
  C18_position_derived Chan.posX simQuiet stateFailed (Or.inl rfl)
    (Or.inl (by simp [State.failed, Chan.idx, stateFailed, Flags.get]))

/-- The rotation issued at lines 470-471, 582-583 and 616-617 for an angle in
`[0, 360)`. -/
theorem rotate_shorter_arc (a delta : ℚ) (h0 : 0 ≤ a) (h360 : a < 360)
    (h : Cmd.Rotate delta ∈
      (if a ≥ 180 then [Cmd.Rotate (360 - a)] else [Cmd.Rotate (-a)])) :
    |delta| ≤ 180 ∧ (a + delta = 0 ∨ a + delta = 360) ∧
    delta = (if a < 180 then -a else 360 - a) := by
  by_cases ha : a ≥ 180
  · rw [if_pos ha] at h
    simp only [List.mem_singleton, Cmd.Rotate.injEq] at h
    have hlt : ¬ a < 180 := not_lt.mpr ha
    rw [if_neg hlt, h]
    refine ⟨?_, Or.inr (by ring), rfl⟩
    rw [abs_le]
    constructor <;> linarith
  · rw [if_neg ha] at h
    simp only [List.mem_singleton, Cmd.Rotate.injEq] at h
    have hlt : a < 180 := not_le.mp ha
    rw [if_pos hlt, h]
    refine ⟨?_, Or.inl (by ring), rfl⟩
    rw [abs_le]
    constructor <;> linarith

/-- C19: every `Rotate(delta)` call issued by `Lander_Control` or
`Safety_Override` for a measured angle `a` in `[0, 360)` has `|delta| ≤ 180`
and `a + delta` equal to 0 or 360: `delta = -a` when `a < 180` and
`delta = 360 - a` when `a ≥ 180`. -/
theorem C19_shorter_arc (env : Sim) (s : State) (delta : ℚ)
    (h0 : 0 ≤ env.Angle) (h360 : env.Angle < 360)
    (hmem : Cmd.Rotate delta ∈ (Lander_Control env s).1 ∨
      Cmd.Rotate delta ∈ Safety_Override env) :
    |delta| ≤ 180 ∧ (env.Angle + delta = 0 ∨ env.Angle + delta = 360) ∧
    delta = (if env.Angle < 180 then -env.Angle else 360 - env.Angle) := by
  have hvert : Cmd.Rotate delta ∈ Safety_Override_vertical env →
      Cmd.Rotate delta ∈
        (if env.Angle ≥ 180 then [Cmd.Rotate (360 - env.Angle)]
          else [Cmd.Rotate (-env.Angle)]) := by
    unfold Safety_Override_vertical
    intro h
    split at h
    · split at h
      · exact h
      · split at h <;> simp at h
    · simp at h
  apply rotate_shorter_arc env.Angle delta h0 h360
  rcases hmem with h | h
  · simp only [Lander_Control, Lander_Control_actuate] at h
    split at h
    · exact h
    · exfalso
      revert h
      (repeat' split) <;> simp
  · unfold Safety_Override at h
    split at h
    · simp at h
    · split at h
      · split at h
        · exact h
        · rw [List.mem_append] at h
          rcases h with h | h
          · exfalso
            revert h
            split <;> simp
          · exact hvert h
      · exact hvert h

/-- Witness of C19: `Lander_Control` on the tick `simTilted` (angle 90) issues
`Rotate(-90)`, and `Safety_Override` on the tick `simClose` (angle 200) issues
`Rotate(160)`. -/
theorem C19_shorter_arc_witness :
    (|(-90 : ℚ)| ≤ 180 ∧ (simTilted.Angle + -90 = 0 ∨ simTilted.Angle + -90 = 360) ∧
      (-90 : ℚ) = (if simTilted.Angle < 180 then -simTilted.Angle else 360 - simTilted.Angle)) ∧
    (|(160 : ℚ)| ≤ 180 ∧ (simClose.Angle + 160 = 0 ∨ simClose.Angle + 160 = 360) ∧
      (160 : ℚ) = (if simClose.Angle < 180 then -simClose.Angle else 360 - simClose.Angle)) :=
  ⟨C19_shorter_arc simTilted stateClear (-90) (by norm_num [simTilted, simQuiet])
      (by norm_num [simTilted, simQuiet])
      (Or.inl (by norm_num [Lander_Control, Lander_Control_actuate, simTilted, simQuiet])),
   C19_shorter_arc simClose stateClear 160 (by norm_num [simClose]) (by norm_num [simClose])
      (Or.inr (by
        norm_num [Safety_Override, Safety_Override_dminH, Safety_Override_DistLimit, sonarScan,
          List.range', simClose, abs_of_nonneg, abs_of_nonpos]))⟩

/-- C20: at the end of a non-rotating `Lander_Control` tick the last commanded
power of the left or of the right thruster is 0.  The left thruster is left at
0 when the lander is right of the target and within the limit
(`xvr > -VXlim`; the right thruster corrects) or not right of it and over the
limit (the right thruster brakes); the right thruster is left at 0 in the two
other cases, in which the left thruster brakes or corrects. -/
theorem C20_side_thrusters_never_fight (env : Sim) (s : State) (l : Locals)
    (hl : l = (Lander_Control_limits env (Lander_Control_seed env s)).1)
    (hrot : ¬ (1 < env.Angle ∧ env.Angle < 359)) :
    (lastPower Cmd.isLeft (Lander_Control env s).1 = some 0 ∨
      lastPower Cmd.isRight (Lander_Control env s).1 = some 0) ∧
    (l.xpr > env.PLAT_X ∧ l.xvr > -l.VXlim →
      lastPower Cmd.isLeft (Lander_Control env s).1 = some 0 ∧
      lastPower Cmd.isRight (Lander_Control env s).1
        = some ((l.VXlim + min 0 l.xvr) / l.VXlim)) ∧
    (l.xpr > env.PLAT_X ∧ ¬ l.xvr > -l.VXlim →
      lastPower Cmd.isRight (Lander_Control env s).1 = some 0 ∧
      lastPower Cmd.isLeft (Lander_Control env s).1 = some |l.VXlim - l.xvr|) ∧
    (¬ l.xpr > env.PLAT_X ∧ l.xvr < l.VXlim →
      lastPower Cmd.isRight (Lander_Control env s).1 = some 0 ∧
      lastPower Cmd.isLeft (Lander_Control env s).1
        = some ((l.VXlim - max 0 l.xvr) / l.VXlim)) ∧
    (¬ l.xpr > env.PLAT_X ∧ ¬ l.xvr < l.VXlim →
      lastPower Cmd.isLeft (Lander_Control env s).1 = some 0 ∧
      lastPower Cmd.isRight (Lander_Control env s).1 = some |l.VXlim - l.xvr|) := by
  have hg : ¬ (env.Angle > 1 ∧ env.Angle < 359) := hrot
  have e : (Lander_Control env s).1 = Lander_Control_actuate env l := by
    rw [hl]
    rfl
  rw [e]
  unfold Lander_Control_actuate
  rw [if_neg hg]
  by_cases h1 : l.xpr > env.PLAT_X
  · by_cases h2 : l.xvr > -l.VXlim
    · simp only [if_pos h1, if_pos h2]
      split <;>
        simp [lastPower, List.filter, Cmd.isLeft, Cmd.isRight, Cmd.powerArg, h1, h2]
    · simp only [if_pos h1, if_neg h2]
      split <;>
        simp [lastPower, List.filter, Cmd.isLeft, Cmd.isRight, Cmd.powerArg, h1, h2]
  · by_cases h2 : l.xvr < l.VXlim
    · simp only [if_neg h1, if_pos h2]
      split <;>
        simp [lastPower, List.filter, Cmd.isLeft, Cmd.isRight, Cmd.powerArg, h1, h2]
    · simp only [if_neg h1, if_neg h2]
      split <;>
        simp [lastPower, List.filter, Cmd.isLeft, Cmd.isRight, Cmd.powerArg, h1, h2]

/-- Witness of C20: `stateClear` on the upright tick `simQuiet`. -/
theorem C20_side_thrusters_never_fight_witness :
    lastPower Cmd.isLeft (Lander_Control simQuiet stateClear).1 = some 0 ∨
    lastPower Cmd.isRight (Lander_Control simQuiet stateClear).1 = some 0 :=
  (C20_side_thrusters_never_fight simQuiet stateClear _ rfl (by norm_num [simQuiet])).1

/-- C21 fails on the code: on the tick `simGround` the lander is outside the
suppression box, the vertical `dmin` is 1, below `DistLimit = 75`, and the
angle 359.5 is aligned; the vertical check tests `Angle > 1 || Angle > 359`
(line 614), so `Safety_Override` issues `Rotate(0.5)` and no `Main_Thruster`
call, while `Lander_Control` treats the same angle as aligned and issues no
`Rotate`. -/
theorem C21_vertical_check_rotates_when_aligned :
    ¬ (|simGround.PLAT_X - simGround.Position_X| < 150
        ∧ |simGround.PLAT_Y - simGround.Position_Y| < 150) ∧
    Safety_Override_dminV simGround = 1 ∧
    Safety_Override_DistLimit simGround = 75 ∧
    (359 ≤ simGround.Angle ∧ simGround.Angle < 360) ∧
    Safety_Override simGround = [Cmd.Rotate (1 / 2)] ∧
    (Safety_Override simGround).countP Cmd.isMain = 0 ∧
    (Lander_Control simGround stateClear).1.countP Cmd.isRotate = 0 := by
  have hV : Safety_Override_dminV simGround = 1 := by
    norm_num [Safety_Override_dminV, sonarScan, List.range', simGround]
  have hH : Safety_Override_dminH simGround = 1000000 := by
    norm_num [Safety_Override_dminH, sonarScan, List.range', simGround]
  have hD : Safety_Override_DistLimit simGround = 75 := by
    norm_num [Safety_Override_DistLimit, simGround]
  have hS : Safety_Override simGround = [Cmd.Rotate (1 / 2)] := by
    unfold Safety_Override Safety_Override_vertical
    rw [hV, hH, hD]
    norm_num [simGround, abs_of_nonneg, abs_of_nonpos]
  refine ⟨by norm_num [simGround, abs_of_nonpos], hV, hD, by norm_num [simGround], hS, ?_, ?_⟩
  · rw [hS]
    rfl
  · have hg : ¬ (simGround.Angle > 1 ∧ simGround.Angle < 359) := by
      norm_num [simGround]
    simp only [Lander_Control, Lander_Control_actuate, if_neg hg]
    (repeat' split) <;> simp [List.countP_cons, Cmd.isRotate]

end Lander
